import Mathlib

/-!
# Users controller: request handlers over an explicit world

An embedding of `src/api/components/users/users-controller.js`.  Each
handler is a function from the collaborators it calls (the users service and
the password primitive), the request and the current world to a completion
and a new world.  The world holds the state of the collaborators and the
ordered log of every call the handler made on a collaborator, on the
response object, or on `next`.
-/

namespace UsersController

/-! ## Values -/

/-- A primitive JavaScript value: what a field of a parsed JSON body, a path
parameter or a stored field holds.  `undefined` is the value of an absent
field.  Numbers are the integer-valued ones; array- and object-valued fields
are not part of this model. -/
inductive JsValue where
  | undefined
  | null
  | bool (b : Bool)
  | number (n : Int)
  | string (s : String)
  deriving DecidableEq, Repr

/-- ToBoolean: the test behind `!x` and `if (x)`. -/
def JsValue.truthy : JsValue → Bool
  | .undefined => false
  | .null => false
  | .bool b => b
  | .number n => decide (n ≠ 0)
  | .string s => decide (s ≠ "")

/-- The `length` of a string: its number of UTF-16 code units. -/
def utf16Length (s : String) : Nat :=
  (s.toList.map (fun c => if c.toNat < 65536 then 1 else 2)).sum

/-! ## Errors -/

/-- The members of `errorTypes` that the controller names. -/
inductive errorTypes where
  | VALIDATION_ERROR
  | EMAIL_ALREADY_TAKEN
  | UNPROCESSABLE_ENTITY
  | NOT_IMPLEMENTED
  deriving DecidableEq, Repr

/-- Modelled from the spec: `core/errors` is not among the sources; the HTTP
status per category follows the taxonomy of section 7 (validation 400,
email-already-taken 409, unprocessable entity 422, not implemented 501). -/
def errorTypes.status : errorTypes → Nat
  | .VALIDATION_ERROR => 400
  | .EMAIL_ALREADY_TAKEN => 409
  | .UNPROCESSABLE_ENTITY => 422
  | .NOT_IMPLEMENTED => 501

/-- Whatever a `throw` or a rejected `await` can carry. -/
inductive Thrown where
  /-- the object built by `errorResponder(type, message)` -/
  | responder (type : errorTypes) (message : Option String)
  /-- reading a property of `undefined` or `null` -/
  | typeError
  /-- reading a `const` binding before its initialiser has run -/
  | referenceError
  /-- a rejection raised inside a collaborator -/
  | external (tag : Nat)
  deriving DecidableEq, Repr

/-- Modelled from the spec: `errorResponder` of `core/errors` is not among the
sources; section 4.1 has it build, without failing, an error object from a
category and a message (the message is absent when the call passes none). -/
def errorResponder (type : errorTypes) (message : Option String) : Thrown :=
  .responder type message

/-! ## Requests, stored users, responses -/

/-- The four fields the handlers read from `request.body`. -/
structure Body where
  email : JsValue
  password : JsValue
  full_name : JsValue
  confirm_password : JsValue
  deriving DecidableEq, Repr

/-- A request: `body` is `none` when `request.body` is `undefined` or `null`;
`params_id` is `request.params.id`. -/
structure Request where
  body : Option Body
  params_id : JsValue
  deriving DecidableEq, Repr

/-- Modelled from the spec: the user record of the absent persistence layer
(section 3: identifier, email, full name, password hash). -/
structure User where
  id : JsValue
  email : JsValue
  fullName : JsValue
  password : JsValue
  deriving DecidableEq, Repr

/-- An argument passed to `usersService.getUser`: a primitive value, or a
value that came back from the service (a user record, or `null`). -/
inductive Arg where
  | value (v : JsValue)
  | record (u : Option User)
  deriving DecidableEq, Repr

/-- The argument of `response.json`. -/
inductive ResponseBody where
  | message (text : String)
  | user (u : User)
  | users (us : List User)
  deriving DecidableEq, Repr

/-- One observable call made by a handler, with its arguments. -/
inductive Event where
  | getUsers
  | getUser (args : List Arg)
  | emailExists (email : JsValue)
  | createUser (email hashedPassword fullName : JsValue)
  | updateUser (id email fullName : JsValue)
  | deleteUser (id : JsValue)
  | hashPassword (password : JsValue)
  | status (code : Nat)
  | json (body : ResponseBody)
  | next (error : Thrown)
  deriving DecidableEq, Repr

/-- What a handler's promise resolves to. -/
inductive Returned where
  /-- the response object, as returned by `response.status(..).json(..)` -/
  | response
  /-- the result of calling `next` -/
  | nextResult
  /-- a bare string -/
  | string (s : String)
  deriving DecidableEq, Repr

/-! ## Collaborators and the handler monad -/

/-- The collaborators required at the head of the controller: the methods of
`usersService` and `hashPassword`.  Each one reads and may change the
collaborators' state `σ`, and either returns or rejects. -/
structure Collaborators (σ : Type) where
  getUsers : σ → Except Thrown (List User) × σ
  getUser : List Arg → σ → Except Thrown (Option User) × σ
  emailExists : JsValue → σ → Except Thrown Bool × σ
  createUser : JsValue → JsValue → JsValue → σ → Except Thrown Bool × σ
  updateUser : JsValue → JsValue → JsValue → σ → Except Thrown Bool × σ
  deleteUser : JsValue → σ → Except Thrown Bool × σ
  hashPassword : JsValue → σ → Except Thrown JsValue × σ

/-- The collaborators' state and the log of calls made so far (oldest first). -/
structure World (σ : Type) where
  store : σ
  trace : List Event

/-- A computation that may throw and that threads the world. -/
def Handler (σ α : Type) : Type := World σ → Except Thrown α × World σ

namespace Handler

variable {σ α β : Type}

/-- Normal completion with a value. -/
def ret (a : α) : Handler σ α := fun w => (.ok a, w)

/-- Sequencing; an abrupt completion skips the continuation. -/
def seq (m : Handler σ α) (f : α → Handler σ β) : Handler σ β := fun w =>
  match m w with
  | (.ok a, w1) => f a w1
  | (.error e, w1) => (.error e, w1)

/-- The `throw` statement. -/
def raise (e : Thrown) : Handler σ α := fun w => (.error e, w)

/-- The `try { .. } catch (error) { .. }` statement. -/
def attempt (m : Handler σ α) (h : Thrown → Handler σ α) : Handler σ α := fun w =>
  match m w with
  | (.ok a, w1) => (.ok a, w1)
  | (.error e, w1) => h e w1

instance : Monad (Handler σ) where
  pure := ret
  bind := seq

instance : MonadExcept Thrown (Handler σ) where
  throw := raise
  tryCatch := attempt

/-- Append one call to the log. -/
def emit (e : Event) : Handler σ Unit := fun w =>
  (.ok (), { w with trace := w.trace ++ [e] })

/-- An awaited call on a collaborator: the call is logged, then run on the
collaborators' state. -/
def call (e : Event) (op : σ → Except Thrown α × σ) : Handler σ α := fun w =>
  let r := op w.store
  (r.1, { store := r.2, trace := w.trace ++ [e] })

/-- Completion of a pure step that may throw. -/
def complete (x : Except Thrown α) : Handler σ α := fun w => (x, w)

/-- The statement `if (c) { throw e; }`. -/
def throwIf (c : Bool) (e : Thrown) : Handler σ Unit := fun w =>
  if c then (.error e, w) else (.ok (), w)

end Handler

open Handler

/-- The statement `response.status(code).json(body)`. -/
def respond {σ : Type} (code : Nat) (body : ResponseBody) : Handler σ Returned := do
  emit (.status code)
  emit (.json body)
  pure .response

/-- The call `next(error)`. -/
def next {σ : Type} (error : Thrown) : Handler σ Returned := do
  emit (.next error)
  pure .nextResult

/-- Destructuring `request.body`: a `TypeError` when it is `undefined` or `null`. -/
def destructure (body : Option Body) : Except Thrown Body :=
  match body with
  | none => .error .typeError
  | some b => .ok b

/-- The property read `v.length`: a `TypeError` on `undefined` and `null`,
`undefined` (here `none`) on booleans and numbers, the number of UTF-16 code
units on a string. -/
def JsValue.length : JsValue → Except Thrown (Option Nat)
  | .undefined => .error .typeError
  | .null => .error .typeError
  | .bool _ => .ok none
  | .number _ => .ok none
  | .string s => .ok (some (utf16Length s))

/-- The comparison `l < k` for `l` read by `.length`: `undefined < k` is false. -/
def lengthLt (l : Option Nat) (k : Nat) : Bool :=
  match l with
  | none => false
  | some n => decide (n < k)

/-- Reading a `const` binding: a `ReferenceError` while it is uninitialised. -/
def readBinding {α : Type} (slot : Option α) : Except Thrown α :=
  match slot with
  | none => .error .referenceError
  | some v => .ok v

/-! ## The handlers -/

section Handlers

variable {σ : Type}

/-- Handler `getUsers`. -/
def getUsers (ext : Collaborators σ) (_request : Request) : Handler σ Returned :=
  tryCatch
    (do
      let users ← call .getUsers ext.getUsers
      respond 200 (.users users))
    (fun error => next error)

/-- Handler `getUser`. -/
def getUser (ext : Collaborators σ) (request : Request) : Handler σ Returned :=
  tryCatch
    (do
      let user ← call (.getUser [.value request.params_id]) (ext.getUser [.value request.params_id])
      match user with
      | none => throw (errorResponder .UNPROCESSABLE_ENTITY (some "User not found"))
      | some u => respond 200 (.user u))
    (fun error => next error)

/-- Handler `createUser`. -/
def createUser (ext : Collaborators σ) (request : Request) : Handler σ Returned :=
  tryCatch
    (do
      let body ← complete (destructure request.body)
      let email := body.email
      let password := body.password
      let fullName := body.full_name
      let confirmPassword := body.confirm_password
      -- Email is required and cannot be empty
      throwIf (!email.truthy)
        (errorResponder .VALIDATION_ERROR (some "Email is required"))
      -- Full name is required and cannot be empty
      throwIf (!fullName.truthy)
        (errorResponder .VALIDATION_ERROR (some "Full name is required"))
      -- Email must be unique
      let taken ← call (.emailExists email) (ext.emailExists email)
      throwIf taken
        (errorResponder .EMAIL_ALREADY_TAKEN (some "Email already exists"))
      -- The password is at least 8 characters long
      let len ← complete password.length
      throwIf (lengthLt len 8)
        (errorResponder .VALIDATION_ERROR (some "Password must be at least 8 characters long"))
      -- The password and confirm password must match
      throwIf (decide (password ≠ confirmPassword))
        (errorResponder .VALIDATION_ERROR (some "Password and confirm password do not match"))
      -- Hash the password before saving it to the database
      let hashedPassword ← call (.hashPassword password) (ext.hashPassword password)
      -- Create the user
      let success ← call (.createUser email hashedPassword fullName)
        (ext.createUser email hashedPassword fullName)
      throwIf (!success)
        (errorResponder .UNPROCESSABLE_ENTITY (some "Failed to create user"))
      respond 201 (.message "User created successfully"))
    (fun error => next error)

/-- Handler `updateUser`. -/
def updateUser (ext : Collaborators σ) (request : Request) : Handler σ Returned :=
  tryCatch
    (do
      let body ← complete (destructure request.body)
      let email := body.email
      let fullName := body.full_name
      -- User must exist
      let user ← call (.getUser [.value request.params_id]) (ext.getUser [.value request.params_id])
      match user with
      | none => throw (errorResponder .UNPROCESSABLE_ENTITY (some "User not found"))
      | some u =>
        -- Email is required and cannot be empty
        throwIf (!email.truthy)
          (errorResponder .VALIDATION_ERROR (some "Email is required"))
        -- Full name is required and cannot be empty
        throwIf (!fullName.truthy)
          (errorResponder .VALIDATION_ERROR (some "Full name is required"))
        -- Email must be unique, if it is changed
        if email ≠ u.email then
          let taken ← call (.emailExists email) (ext.emailExists email)
          throwIf taken (errorResponder .EMAIL_ALREADY_TAKEN (some "Email already exists"))
        let success ← call (.updateUser request.params_id email fullName)
          (ext.updateUser request.params_id email fullName)
        throwIf (!success)
          (errorResponder .UNPROCESSABLE_ENTITY (some "Failed to update user"))
        respond 200 (.message "User updated successfully"))
    (fun error => next error)

/-- Handler `changePassword`: the body is a single `return next(..)`. -/
def changePassword (_ext : Collaborators σ) (_request : Request) : Handler σ Returned :=
  next (errorResponder .NOT_IMPLEMENTED none)

/-- Handler `deleteUser`. -/
def deleteUser (ext : Collaborators σ) (request : Request) : Handler σ Returned :=
  tryCatch
    (do
      let success ← call (.deleteUser request.params_id) (ext.deleteUser request.params_id)
      throwIf (!success)
        (errorResponder .UNPROCESSABLE_ENTITY (some "Failed to delete user"))
      respond 200 (.message "User deleted successfully"))
    (fun error => next error)

/-- The `try` block of `loginUser`.  The binding `user` is read, as the first
argument of the call that initialises it, while still uninitialised
(`userSlot`). -/
def loginUserTry (ext : Collaborators σ) (request : Request) : Handler σ Returned := do
  let body ← complete (destructure request.body)
  let email := body.email
  let password := body.password
  -- Email is required
  throwIf (!email.truthy)
    (errorResponder .VALIDATION_ERROR (some "Email is required"))
  -- Password is required
  throwIf (!password.truthy)
    (errorResponder .VALIDATION_ERROR (some "Password is required"))
  -- Get user's email
  let userSlot : Option (Option User) := none
  let userArg ← complete (readBinding userSlot)
  let user ← call (.getUser [.record userArg, .value email])
    (ext.getUser [.record userArg, .value email])
  match user with
  | none => respond 404 (.message "User not found")
  | some u =>
    -- Check user's password
    let checkPassword ← call (.getUser [.record (some u), .value password])
      (ext.getUser [.record (some u), .value password])
    match checkPassword with
    | none => respond 403 (.message "INVALID_PASSWORD")
    | some _ =>
      let success ← call (.getUser [.value request.params_id, .value email, .value password])
        (ext.getUser [.value request.params_id, .value email, .value password])
      match success with
      | none => throw (errorResponder .UNPROCESSABLE_ENTITY (some "Failed to login"))
      | some _ => respond 200 (.message "User succesfully logged in")

/-- Handler `loginUser`.  It takes no `next`; its `catch` returns a string. -/
def loginUser (ext : Collaborators σ) (request : Request) : Handler σ Returned :=
  tryCatch (loginUserTry ext request) (fun _error => pure (.string "server error"))

end Handlers

/-- The outcome of running a handler from a collaborator state with an empty log. -/
def run {σ : Type} (h : Handler σ Returned) (s : σ) : Except Thrown Returned × World σ :=
  h { store := s, trace := [] }

/-! ## Observations on a log -/

/-- The event is a call of `usersService.createUser`. -/
def Event.isCreateUser : Event → Bool
  | .createUser _ _ _ => true
  | _ => false

/-- The event is a call of `usersService.updateUser`. -/
def Event.isUpdateUser : Event → Bool
  | .updateUser _ _ _ => true
  | _ => false

/-- The event is a call of `usersService.emailExists`. -/
def Event.isEmailExists : Event → Bool
  | .emailExists _ => true
  | _ => false

/-- The event is a call of `hashPassword`. -/
def Event.isHashPassword : Event → Bool
  | .hashPassword _ => true
  | _ => false

/-- The event is a call of any method of `usersService`. -/
def Event.isServiceCall : Event → Bool
  | .getUsers => true
  | .getUser _ => true
  | .emailExists _ => true
  | .createUser _ _ _ => true
  | .updateUser _ _ _ => true
  | .deleteUser _ => true
  | _ => false

/-- The event is a call of a method of the response object. -/
def Event.isResponseCall : Event → Bool
  | .status _ => true
  | .json _ => true
  | _ => false

/-- The log holds no call of `usersService.createUser`. -/
def noCreateUser (t : List Event) : Bool := t.all (fun e => !e.isCreateUser)

/-- The log holds no call of `usersService.updateUser`. -/
def noUpdateUser (t : List Event) : Bool := t.all (fun e => !e.isUpdateUser)

/-- The log holds no call of `usersService.emailExists`. -/
def noEmailExists (t : List Event) : Bool := t.all (fun e => !e.isEmailExists)

/-- The log holds no call of `hashPassword`. -/
def noHashPassword (t : List Event) : Bool := t.all (fun e => !e.isHashPassword)

/-- The log holds no call of a method of `usersService`. -/
def noServiceCall (t : List Event) : Bool := t.all (fun e => !e.isServiceCall)

/-- The log holds no call of a method of the response object. -/
def noResponseCall (t : List Event) : Bool := t.all (fun e => !e.isResponseCall)

/-- The value is a string of fewer than `k` UTF-16 code units. -/
def JsValue.shorterThan (v : JsValue) (k : Nat) : Bool :=
  match v with
  | .string s => decide (utf16Length s < k)
  | _ => false

/-- The length test of `createUser` lets the password through: `password.length`
can be read and is not below 8. -/
def passesLengthRule (v : JsValue) : Bool :=
  match v.length with
  | .ok l => !lengthLt l 8
  | .error _ => false

/-- The last events of `createUser`, after the service call has completed
with `r`. -/
def createUserEnding (r : Except Thrown Bool) : List Event :=
  match r with
  | .ok true => [.status 201, .json (.message "User created successfully")]
  | .ok false => [.next (errorResponder .UNPROCESSABLE_ENTITY (some "Failed to create user"))]
  | .error e => [.next e]

/-- What `createUser` resolves to, after the service call has completed with `r`. -/
def createUserResult (r : Except Thrown Bool) : Returned :=
  match r with
  | .ok true => .response
  | _ => .nextResult

/-- The value is a string of at least `k` UTF-16 code units. -/
def JsValue.atLeast (v : JsValue) (k : Nat) : Bool :=
  match v with
  | .string s => decide (k ≤ utf16Length s)
  | _ => false

/-- The validation chain of `createUser` as section 4.4 words it: the category
and message of the first of the five rules, taken in order, that fails, or
`none` when all five pass.  `registered` is the answer of the uniqueness
check. -/
def firstFailingRule (registered : Bool) (b : Body) : Option (errorTypes × String) :=
  if !b.email.truthy then some (.VALIDATION_ERROR, "Email is required")
  else if !b.full_name.truthy then some (.VALIDATION_ERROR, "Full name is required")
  else if registered then some (.EMAIL_ALREADY_TAKEN, "Email already exists")
  else if !b.password.atLeast 8 then
    some (.VALIDATION_ERROR, "Password must be at least 8 characters long")
  else if b.password ≠ b.confirm_password then
    some (.VALIDATION_ERROR, "Password and confirm password do not match")
  else none

/-- The last events of `updateUser`, after the service call has completed
with `r`. -/
def updateUserEnding (r : Except Thrown Bool) : List Event :=
  match r with
  | .ok true => [.status 200, .json (.message "User updated successfully")]
  | .ok false => [.next (errorResponder .UNPROCESSABLE_ENTITY (some "Failed to update user"))]
  | .error e => [.next e]

/-- What `updateUser` resolves to, after the service call has completed with `r`. -/
def updateUserResult (r : Except Thrown Bool) : Returned :=
  match r with
  | .ok true => .response
  | _ => .nextResult

/-! ## A model of the absent users service -/

/-- Modelled from the spec: `users-service` and the persistence layer are not
among the sources; the store is the list of user records together with the
next identifier to hand out. -/
structure Store where
  users : List User
  nextId : Nat
  deriving DecidableEq, Repr

/-- The number of stored users with the given email. -/
def Store.countEmail (st : Store) (email : JsValue) : Nat :=
  (st.users.filter (fun u => decide (u.email = email))).length

/-- The identifier a `getUser` call looks up: its first argument, when that
is a primitive value. -/
def lookupId (args : List Arg) : Option JsValue :=
  match args with
  | .value v :: _ => some v
  | _ => none

/-- Modelled from the spec: `users-service` and `utils/password` are not among
the sources.  Following section 6, the service lists, gets by id, checks
existence by email (membership in the store), creates (inserts a record and
reports `true`), updates and deletes (reporting `false` for an unknown id);
`hash` stands for the password primitive. -/
def modelService (hash : JsValue → Except Thrown JsValue) : Collaborators Store where
  getUsers := fun st => (.ok st.users, st)
  getUser := fun args st =>
    (.ok (match lookupId args with
          | some id => st.users.find? (fun u => decide (u.id = id))
          | none => none), st)
  emailExists := fun email st =>
    (.ok (st.users.any (fun u => decide (u.email = email))), st)
  createUser := fun email hashedPassword fullName st =>
    (.ok true,
      { users := st.users ++
          [{ id := .number st.nextId, email := email, fullName := fullName,
             password := hashedPassword }],
        nextId := st.nextId + 1 })
  updateUser := fun id email fullName st =>
    if st.users.any (fun u => decide (u.id = id)) then
      (.ok true,
        { users := st.users.map (fun u =>
            if u.id = id then { u with email := email, fullName := fullName } else u),
          nextId := st.nextId })
    else (.ok false, st)
  deleteUser := fun id st =>
    if st.users.any (fun u => decide (u.id = id)) then
      (.ok true,
        { users := st.users.filter (fun u => decide (u.id ≠ id)), nextId := st.nextId })
    else (.ok false, st)
  hashPassword := fun password st => (hash password, st)

/-- Modelled from the spec: a stand-in for the one-way hash of
`utils/password`, which is not among the sources: a string is marked with a
leading `$`, anything else is rejected. -/
def sampleHash : JsValue → Except Thrown JsValue
  | .string s => .ok (.string ("$" ++ s))
  | _ => .error (.external 0)

/-- A stored user with email `a@x.com` whose password is `password1`. -/
def alice : User :=
  { id := .number 0, email := .string "a@x.com", fullName := .string "A",
    password := .string "$password1" }

/-- A second stored user, with email `b@x.com`. -/
def bob : User :=
  { id := .number 1, email := .string "b@x.com", fullName := .string "B",
    password := .string "$password2" }

/-- The store with no user. -/
def emptyStore : Store := { users := [], nextId := 0 }

/-- The store holding `alice` alone. -/
def aliceStore : Store := { users := [alice], nextId := 1 }

/-- The store holding `alice` and `bob`. -/
def twoStore : Store := { users := [alice, bob], nextId := 2 }

/-- The creation request of the spec's example. -/
def aliceCreate : Request :=
  { body := some { email := .string "a@x.com", password := .string "password1",
                   full_name := .string "A", confirm_password := .string "password1" },
    params_id := .undefined }

/-- A login request with the email and the password of `alice`. -/
def aliceLogin : Request :=
  { body := some { email := .string "a@x.com", password := .string "password1",
                   full_name := .undefined, confirm_password := .undefined },
    params_id := .undefined }

/-- A login request with the email of `alice` and a wrong password. -/
def aliceWrongLogin : Request :=
  { body := some { email := .string "a@x.com", password := .string "password9",
                   full_name := .undefined, confirm_password := .undefined },
    params_id := .undefined }

/-- A login request with an email that no stored user has. -/
def strangerLogin : Request :=
  { body := some { email := .string "z@x.com", password := .string "password1",
                   full_name := .undefined, confirm_password := .undefined },
    params_id := .undefined }

/-- A request whose body has none of the fields. -/
def blankRequest : Request :=
  { body := some { email := .undefined, password := .undefined,
                   full_name := .undefined, confirm_password := .undefined },
    params_id := .undefined }

/-- A creation request with the email of `alice` and a five-character password. -/
def shortPasswordCreate : Request :=
  { body := some { email := .string "a@x.com", password := .string "short",
                   full_name := .string "A", confirm_password := .string "short" },
    params_id := .undefined }

/-- A creation request whose body has an email and a full name and no
password field. -/
def noPasswordCreate : Request :=
  { body := some { email := .string "a@x.com", password := .undefined,
                   full_name := .string "A", confirm_password := .undefined },
    params_id := .undefined }

/-- A creation request whose confirmation differs from its password. -/
def mismatchCreate : Request :=
  { body := some { email := .string "a@x.com", password := .string "password1",
                   full_name := .string "A", confirm_password := .string "password2" },
    params_id := .undefined }

/-- A creation request with the email of `bob`, a full name and no password
field. -/
def bobNoPassword : Request :=
  { body := some { email := .string "b@x.com", password := .undefined,
                   full_name := .string "B", confirm_password := .undefined },
    params_id := .undefined }

/-- An update of user 0 (`alice`) that keeps her email and changes her name. -/
def aliceRename : Request :=
  { body := some { email := .string "a@x.com", password := .undefined,
                   full_name := .string "Alice", confirm_password := .undefined },
    params_id := .number 0 }

/-- An update of user 0 (`alice`) that asks for the email of `bob`. -/
def aliceTakesBob : Request :=
  { body := some { email := .string "b@x.com", password := .undefined,
                   full_name := .string "A", confirm_password := .undefined },
    params_id := .number 0 }

/-- The store left by `aliceRename` on `twoStore`. -/
def renamedStore : Store :=
  { users := [{ alice with fullName := .string "Alice" }, bob], nextId := 2 }

/-- The store left by deleting `alice` from `aliceStore`. -/
def emptyStoreAfterAlice : Store := { users := [], nextId := 1 }

/-! ## Unfolding lemmas for the handler monad -/

section Unfold

variable {σ α β : Type}

@[simp] theorem pure_apply (a : α) (w : World σ) :
    (pure a : Handler σ α) w = (.ok a, w) := rfl

@[simp] theorem bind_apply (m : Handler σ α) (f : α → Handler σ β) (w : World σ) :
    (m >>= f) w = Handler.seq m f w := rfl

@[simp] theorem throw_apply (e : Thrown) (w : World σ) :
    (throw e : Handler σ α) w = (.error e, w) := rfl

@[simp] theorem tryCatch_apply (m : Handler σ α) (h : Thrown → Handler σ α) (w : World σ) :
    (tryCatch m h) w = Handler.attempt m h w := rfl

@[simp] theorem emit_apply (e : Event) (w : World σ) :
    (emit e : Handler σ Unit) w = (.ok (), { store := w.store, trace := w.trace ++ [e] }) := rfl

@[simp] theorem call_apply (e : Event) (op : σ → Except Thrown α × σ) (w : World σ) :
    call e op w = ((op w.store).1, { store := (op w.store).2, trace := w.trace ++ [e] }) := rfl

@[simp] theorem throwIf_true (e : Thrown) (w : World σ) :
    (throwIf true e : Handler σ Unit) w = (.error e, w) := rfl

@[simp] theorem throwIf_false (e : Thrown) (w : World σ) :
    (throwIf false e : Handler σ Unit) w = (.ok (), w) := rfl

@[simp] theorem complete_apply (x : Except Thrown α) (w : World σ) :
    (complete x : Handler σ α) w = (x, w) := rfl

@[simp] theorem respond_apply (code : Nat) (body : ResponseBody) (w : World σ) :
    (respond code body : Handler σ Returned) w =
      (.ok .response, { store := w.store, trace := w.trace ++ [.status code, .json body] }) := by
  simp [respond, Handler.seq]

@[simp] theorem next_apply (error : Thrown) (w : World σ) :
    (next error : Handler σ Returned) w =
      (.ok .nextResult, { store := w.store, trace := w.trace ++ [.next error] }) := by
  simp [next, Handler.seq]

end Unfold


/-! ## Reading the length of a password -/

theorem length_of_shorterThan (v : JsValue) (h : v.shorterThan 8 = true) :
    ∃ l, v.length = .ok l ∧ lengthLt l 8 = true := by
  cases v <;> simp [JsValue.shorterThan] at h
  exact ⟨_, rfl, by simpa [lengthLt] using h⟩

theorem length_of_atLeast (v : JsValue) (h : v.atLeast 8 = true) :
    ∃ l, v.length = .ok l ∧ lengthLt l 8 = false := by
  cases v <;> simp [JsValue.atLeast] at h
  exact ⟨_, rfl, by simpa [lengthLt] using h⟩

theorem length_of_passesLengthRule (v : JsValue) (h : passesLengthRule v = true) :
    ∃ l, v.length = .ok l ∧ lengthLt l 8 = false := by
  unfold passesLengthRule at h
  cases hl : v.length with
  | error e => simp [hl] at h
  | ok l => exact ⟨l, rfl, by simpa [hl] using h⟩

/-! ## The model store -/

theorem modelService_emailExists (hash : JsValue → Except Thrown JsValue) (st : Store)
    (email : JsValue) :
    (modelService hash).emailExists email st
      = (.ok (st.users.any (fun u => decide (u.email = email))), st) := rfl

theorem any_email_of_countEmail_zero (st : Store) (email : JsValue)
    (h : st.countEmail email = 0) :
    st.users.any (fun u => decide (u.email = email)) = false := by
  unfold Store.countEmail at h
  rw [List.length_eq_zero] at h
  rw [List.any_eq_false]
  intro u hu hd
  have : u ∈ st.users.filter (fun u => decide (u.email = email)) :=
    List.mem_filter.mpr ⟨hu, hd⟩
  rw [h] at this
  exact absurd this (List.not_mem_nil _)

theorem countEmail_after_insert (st : Store) (email fullName hashed : JsValue) (n : Nat)
    (h : st.countEmail email = 0) :
    Store.countEmail
      { users := st.users ++
          [{ id := .number st.nextId, email := email, fullName := fullName,
             password := hashed }],
        nextId := n } email = 1 := by
  unfold Store.countEmail at h ⊢
  simp [List.filter_append, h]

/-! ## The paths through createUser -/

section CreateUserPaths

variable {σ : Type} (ext : Collaborators σ) (rq : Request) (b : Body) (s s1 s2 : σ)

theorem createUser_no_body (hb : rq.body = none) :
    run (createUser ext rq) s = (.ok .nextResult, ⟨s, [.next .typeError]⟩) := by
  simp [run, createUser, Handler.seq, Handler.attempt, destructure, hb]

theorem createUser_email_required (hb : rq.body = some b) (he : b.email.truthy = false) :
    run (createUser ext rq) s
      = (.ok .nextResult, ⟨s,
          [.next (errorResponder .VALIDATION_ERROR (some "Email is required"))]⟩) := by
  simp [run, createUser, Handler.seq, Handler.attempt, destructure, hb, he]

theorem createUser_full_name_required (hb : rq.body = some b) (he : b.email.truthy = true)
    (hn : b.full_name.truthy = false) :
    run (createUser ext rq) s
      = (.ok .nextResult, ⟨s,
          [.next (errorResponder .VALIDATION_ERROR (some "Full name is required"))]⟩) := by
  simp [run, createUser, Handler.seq, Handler.attempt, destructure, hb, he, hn]

theorem createUser_email_exists_rejects (hb : rq.body = some b) (he : b.email.truthy = true)
    (hn : b.full_name.truthy = true) (e : Thrown)
    (hx : ext.emailExists b.email s = (.error e, s1)) :
    run (createUser ext rq) s
      = (.ok .nextResult, ⟨s1, [.emailExists b.email, .next e]⟩) := by
  simp [run, createUser, Handler.seq, Handler.attempt, destructure, hb, he, hn, hx]

theorem createUser_email_taken (hb : rq.body = some b) (he : b.email.truthy = true)
    (hn : b.full_name.truthy = true) (hx : ext.emailExists b.email s = (.ok true, s1)) :
    run (createUser ext rq) s
      = (.ok .nextResult, ⟨s1,
          [.emailExists b.email,
           .next (errorResponder .EMAIL_ALREADY_TAKEN (some "Email already exists"))]⟩) := by
  simp [run, createUser, Handler.seq, Handler.attempt, destructure, hb, he, hn, hx]

theorem createUser_length_throws (hb : rq.body = some b) (he : b.email.truthy = true)
    (hn : b.full_name.truthy = true) (hx : ext.emailExists b.email s = (.ok false, s1))
    (e : Thrown) (hl : b.password.length = .error e) :
    run (createUser ext rq) s
      = (.ok .nextResult, ⟨s1, [.emailExists b.email, .next e]⟩) := by
  simp [run, createUser, Handler.seq, Handler.attempt, destructure, hb, he, hn, hx, hl]

theorem createUser_password_short (hb : rq.body = some b) (he : b.email.truthy = true)
    (hn : b.full_name.truthy = true) (hx : ext.emailExists b.email s = (.ok false, s1))
    (l : Option Nat) (hl : b.password.length = .ok l) (h8 : lengthLt l 8 = true) :
    run (createUser ext rq) s
      = (.ok .nextResult, ⟨s1,
          [.emailExists b.email,
           .next (errorResponder .VALIDATION_ERROR
             (some "Password must be at least 8 characters long"))]⟩) := by
  simp [run, createUser, Handler.seq, Handler.attempt, destructure, hb, he, hn, hx, hl, h8]

theorem createUser_password_mismatch (hb : rq.body = some b) (he : b.email.truthy = true)
    (hn : b.full_name.truthy = true) (hx : ext.emailExists b.email s = (.ok false, s1))
    (l : Option Nat) (hl : b.password.length = .ok l) (h8 : lengthLt l 8 = false)
    (hc : b.password ≠ b.confirm_password) :
    run (createUser ext rq) s
      = (.ok .nextResult, ⟨s1,
          [.emailExists b.email,
           .next (errorResponder .VALIDATION_ERROR
             (some "Password and confirm password do not match"))]⟩) := by
  simp [run, createUser, Handler.seq, Handler.attempt, destructure, hb, he, hn, hx, hl, h8, hc]

theorem createUser_hash_rejects (hb : rq.body = some b) (he : b.email.truthy = true)
    (hn : b.full_name.truthy = true) (hx : ext.emailExists b.email s = (.ok false, s1))
    (l : Option Nat) (hl : b.password.length = .ok l) (h8 : lengthLt l 8 = false)
    (hc : b.password = b.confirm_password) (e : Thrown)
    (hh : ext.hashPassword b.password s1 = (.error e, s2)) :
    run (createUser ext rq) s
      = (.ok .nextResult, ⟨s2,
          [.emailExists b.email, .hashPassword b.password, .next e]⟩) := by
  simp [run, createUser, Handler.seq, Handler.attempt, destructure, hb, he, hn, hx, hl, h8,
    ← hc, hh]

theorem createUser_reaches_service (hb : rq.body = some b) (he : b.email.truthy = true)
    (hn : b.full_name.truthy = true) (hx : ext.emailExists b.email s = (.ok false, s1))
    (l : Option Nat) (hl : b.password.length = .ok l) (h8 : lengthLt l 8 = false)
    (hc : b.password = b.confirm_password) (h : JsValue)
    (hh : ext.hashPassword b.password s1 = (.ok h, s2)) :
    run (createUser ext rq) s
      = (.ok (createUserResult (ext.createUser b.email h b.full_name s2).1),
          ⟨(ext.createUser b.email h b.full_name s2).2,
           [.emailExists b.email, .hashPassword b.password, .createUser b.email h b.full_name]
             ++ createUserEnding (ext.createUser b.email h b.full_name s2).1⟩) := by
  rcases hr : ext.createUser b.email h b.full_name s2 with ⟨r, s3⟩
  rcases r with e | (_ | _) <;>
    simp [run, createUser, Handler.seq, Handler.attempt, destructure, hb, he, hn, hx, hl, h8,
      ← hc, hh, hr, createUserEnding, createUserResult]

end CreateUserPaths

/-! ## The paths through updateUser -/

section UpdateUserPaths

variable {σ : Type} (ext : Collaborators σ) (rq : Request) (b : Body) (u : User) (s s1 s2 : σ)

theorem updateUser_unchanged_email (hb : rq.body = some b)
    (hg : ext.getUser [.value rq.params_id] s = (.ok (some u), s1))
    (he : b.email.truthy = true) (hn : b.full_name.truthy = true) (hsame : b.email = u.email) :
    run (updateUser ext rq) s
      = (.ok (updateUserResult (ext.updateUser rq.params_id b.email b.full_name s1).1),
          ⟨(ext.updateUser rq.params_id b.email b.full_name s1).2,
           [.getUser [.value rq.params_id], .updateUser rq.params_id b.email b.full_name]
             ++ updateUserEnding (ext.updateUser rq.params_id b.email b.full_name s1).1⟩) := by
  rcases hr : ext.updateUser rq.params_id b.email b.full_name s1 with ⟨r, s3⟩
  rcases r with e | (_ | _) <;>
    simp [run, updateUser, Handler.seq, Handler.attempt, destructure, hb, hg, he, hn,
      ← hsame, hr, updateUserEnding, updateUserResult]

theorem updateUser_email_taken (hb : rq.body = some b)
    (hg : ext.getUser [.value rq.params_id] s = (.ok (some u), s1))
    (he : b.email.truthy = true) (hn : b.full_name.truthy = true) (hdiff : b.email ≠ u.email)
    (hx : ext.emailExists b.email s1 = (.ok true, s2)) :
    run (updateUser ext rq) s
      = (.ok .nextResult, ⟨s2,
          [.getUser [.value rq.params_id], .emailExists b.email,
           .next (errorResponder .EMAIL_ALREADY_TAKEN (some "Email already exists"))]⟩) := by
  simp [run, updateUser, Handler.seq, Handler.attempt, destructure, hb, hg, he, hn, hdiff, hx]

end UpdateUserPaths

/-! ## changePassword -/

section Claims

variable {σ : Type}

/-- C7: for every request and every state of the collaborators, `changePassword`
makes exactly one call, `next` with the NOT_IMPLEMENTED error (status 501): it
writes no response, calls no service method and no password function, and
leaves the collaborators' state as it was. -/
theorem changePassword_forwards_not_implemented (ext : Collaborators σ) (rq : Request) (s : σ) :
    run (changePassword ext rq) s
        = (.ok .nextResult, ⟨s, [.next (errorResponder .NOT_IMPLEMENTED none)]⟩)
      ∧ errorTypes.NOT_IMPLEMENTED.status = 501
      ∧ (run (changePassword ext rq) s).2.store = s
      ∧ noResponseCall (run (changePassword ext rq) s).2.trace = true
      ∧ noServiceCall (run (changePassword ext rq) s).2.trace = true
      ∧ noHashPassword (run (changePassword ext rq) s).2.trace = true := by
  have h : run (changePassword ext rq) s
      = (.ok .nextResult, ⟨s, [.next (errorResponder .NOT_IMPLEMENTED none)]⟩) := by
    simp [run, changePassword]
  rw [h]
  simp [errorTypes.status, noResponseCall, noServiceCall, noHashPassword,
    Event.isResponseCall, Event.isServiceCall, Event.isHashPassword]

/-! ## deleteUser -/

/-- C8: for every identifier, `deleteUser` calls the service once; it writes
status 200 exactly when the service returns `true`, and then the body is the
message `User deleted successfully`; when the service returns `false` it
forwards UNPROCESSABLE_ENTITY (422) `Failed to delete user` to `next` and
writes no response; when the service rejects, the rejection is forwarded and
again no response is written. -/
theorem deleteUser_responds_iff_service_true (ext : Collaborators σ) (rq : Request) (s : σ) :
    (Event.status 200 ∈ (run (deleteUser ext rq) s).2.trace
        ↔ (ext.deleteUser rq.params_id s).1 = .ok true)
      ∧ ((ext.deleteUser rq.params_id s).1 = .ok true →
          run (deleteUser ext rq) s
            = (.ok .response, ⟨(ext.deleteUser rq.params_id s).2,
                [.deleteUser rq.params_id, .status 200,
                 .json (.message "User deleted successfully")]⟩))
      ∧ ((ext.deleteUser rq.params_id s).1 = .ok false →
          run (deleteUser ext rq) s
            = (.ok .nextResult, ⟨(ext.deleteUser rq.params_id s).2,
                [.deleteUser rq.params_id,
                 .next (errorResponder .UNPROCESSABLE_ENTITY (some "Failed to delete user"))]⟩)
          ∧ errorTypes.UNPROCESSABLE_ENTITY.status = 422
          ∧ noResponseCall (run (deleteUser ext rq) s).2.trace = true)
      ∧ (∀ e, (ext.deleteUser rq.params_id s).1 = .error e →
          run (deleteUser ext rq) s
            = (.ok .nextResult, ⟨(ext.deleteUser rq.params_id s).2,
                [.deleteUser rq.params_id, .next e]⟩)) := by
  rcases h : ext.deleteUser rq.params_id s with ⟨r, s1⟩
  rcases r with e | b
  · simp [run, deleteUser, Handler.seq, Handler.attempt, h]
  · cases b <;>
      simp [run, deleteUser, Handler.seq, Handler.attempt, h, errorTypes.status,
        noResponseCall, Event.isResponseCall]

/-- C8, at a concrete input: over the model store holding one user, deleting
the unknown id 7 is reported as a failure by the service and yields the 422
error, while deleting the known id 0 yields the 200 response. -/
theorem deleteUser_responds_iff_service_true_witness :
    ((modelService sampleHash).deleteUser (.number 7) aliceStore).1 = .ok false
      ∧ run (deleteUser (modelService sampleHash) ⟨none, .number 7⟩) aliceStore
          = (.ok .nextResult, ⟨aliceStore,
              [.deleteUser (.number 7),
               .next (errorResponder .UNPROCESSABLE_ENTITY (some "Failed to delete user"))]⟩)
      ∧ ((modelService sampleHash).deleteUser (.number 0) aliceStore).1 = .ok true
      ∧ run (deleteUser (modelService sampleHash) ⟨none, .number 0⟩) aliceStore
          = (.ok .response, ⟨emptyStoreAfterAlice,
              [.deleteUser (.number 0), .status 200,
               .json (.message "User deleted successfully")]⟩) :=
  ⟨rfl,
   ((deleteUser_responds_iff_service_true (modelService sampleHash) ⟨none, .number 7⟩
      aliceStore).2.2.1 rfl).1,
   rfl,
   (deleteUser_responds_iff_service_true (modelService sampleHash) ⟨none, .number 0⟩
      aliceStore).2.1 rfl⟩

/-! ## createUser -/

/-- C10: for every creation request with non-empty email and full name whose
email `emailExists` reports as not registered and whose body has no password
field, `createUser` passes to `next` the `TypeError` thrown by reading
`password.length`, which is not an object built by `errorResponder`; the log
is the `emailExists` call followed by that `next` call, so no response is
written and `usersService.createUser` is not called. -/
theorem createUser_missing_password_type_error (ext : Collaborators σ) (rq : Request)
    (b : Body) (s s1 : σ) (hb : rq.body = some b) (he : b.email.truthy = true)
    (hn : b.full_name.truthy = true) (hx : ext.emailExists b.email s = (.ok false, s1))
    (hp : b.password = .undefined) :
    run (createUser ext rq) s
        = (.ok .nextResult, ⟨s1, [.emailExists b.email, .next .typeError]⟩)
      ∧ (∀ type message, errorResponder type message ≠ Thrown.typeError)
      ∧ noResponseCall (run (createUser ext rq) s).2.trace = true
      ∧ noCreateUser (run (createUser ext rq) s).2.trace = true := by
  have h : run (createUser ext rq) s
      = (.ok .nextResult, ⟨s1, [.emailExists b.email, .next .typeError]⟩) := by
    simp [run, createUser, Handler.seq, Handler.attempt, destructure, JsValue.length,
      hb, he, hn, hx, hp]
  rw [h]
  simp [errorResponder, noResponseCall, noCreateUser, Event.isResponseCall,
    Event.isCreateUser]

/-- C10, at a concrete input: over the empty model store, the request with
email `a@x.com`, full name `A` and no password. -/
theorem createUser_missing_password_type_error_witness :
    run (createUser (modelService sampleHash) noPasswordCreate) emptyStore
      = (.ok .nextResult, ⟨emptyStore, [.emailExists (.string "a@x.com"), .next .typeError]⟩) :=
  (createUser_missing_password_type_error (modelService sampleHash) noPasswordCreate
    { email := .string "a@x.com", password := .undefined, full_name := .string "A",
      confirm_password := .undefined }
    emptyStore emptyStore rfl (by decide) (by decide) rfl rfl).1

/-- C1 as amended: for every creation request with a body, a missing or empty
email is answered by VALIDATION_ERROR (400) `Email is required`; otherwise a
missing or empty full name by VALIDATION_ERROR `Full name is required`;
otherwise, when `emailExists` returns `false`, a password that is a string of
fewer than 8 characters by VALIDATION_ERROR `Password must be at least 8
characters long`, and a password that is a string of at least 8 characters
and differs from `confirm_password` by VALIDATION_ERROR `Password and confirm
password do not match`.  Whenever the email or the full name is missing or
empty, or the password is a string of fewer than 8 characters, or the
password differs from `confirm_password`, no response is written and
`usersService.createUser` is not called. -/
theorem createUser_validation_errors (ext : Collaborators σ) (rq : Request) (b : Body)
    (s : σ) (hb : rq.body = some b) :
    errorTypes.VALIDATION_ERROR.status = 400
      ∧ (b.email.truthy = false →
          run (createUser ext rq) s
            = (.ok .nextResult, ⟨s,
                [.next (errorResponder .VALIDATION_ERROR (some "Email is required"))]⟩))
      ∧ (b.email.truthy = true → b.full_name.truthy = false →
          run (createUser ext rq) s
            = (.ok .nextResult, ⟨s,
                [.next (errorResponder .VALIDATION_ERROR (some "Full name is required"))]⟩))
      ∧ (∀ s1, b.email.truthy = true → b.full_name.truthy = true →
          ext.emailExists b.email s = (.ok false, s1) →
          b.password.shorterThan 8 = true →
          run (createUser ext rq) s
            = (.ok .nextResult, ⟨s1,
                [.emailExists b.email,
                 .next (errorResponder .VALIDATION_ERROR
                   (some "Password must be at least 8 characters long"))]⟩))
      ∧ (∀ s1, b.email.truthy = true → b.full_name.truthy = true →
          ext.emailExists b.email s = (.ok false, s1) →
          b.password.atLeast 8 = true → b.password ≠ b.confirm_password →
          run (createUser ext rq) s
            = (.ok .nextResult, ⟨s1,
                [.emailExists b.email,
                 .next (errorResponder .VALIDATION_ERROR
                   (some "Password and confirm password do not match"))]⟩))
      ∧ ((b.email.truthy = false ∨ b.full_name.truthy = false
            ∨ b.password.shorterThan 8 = true ∨ b.password ≠ b.confirm_password) →
          noCreateUser (run (createUser ext rq) s).2.trace = true
            ∧ noResponseCall (run (createUser ext rq) s).2.trace = true) := by
  refine ⟨rfl, fun he => createUser_email_required ext rq b s hb he,
    fun he hn => createUser_full_name_required ext rq b s hb he hn, ?_, ?_, ?_⟩
  · intro s1 he hn hx hs
    obtain ⟨l, hl, h8⟩ := length_of_shorterThan _ hs
    exact createUser_password_short ext rq b s s1 hb he hn hx l hl h8
  · intro s1 he hn hx hp hc
    obtain ⟨l, hl, h8⟩ := length_of_atLeast _ hp
    exact createUser_password_mismatch ext rq b s s1 hb he hn hx l hl h8 hc
  · intro h
    cases he : b.email.truthy
    · rw [createUser_email_required ext rq b s hb he]; exact ⟨rfl, rfl⟩
    cases hn : b.full_name.truthy
    · rw [createUser_full_name_required ext rq b s hb he hn]; exact ⟨rfl, rfl⟩
    rcases hx : ext.emailExists b.email s with ⟨r, s1⟩
    rcases r with e | (_ | _)
    · rw [createUser_email_exists_rejects ext rq b s s1 hb he hn e hx]; exact ⟨rfl, rfl⟩
    swap
    · rw [createUser_email_taken ext rq b s s1 hb he hn hx]; exact ⟨rfl, rfl⟩
    cases hl : b.password.length with
    | error e =>
      rw [createUser_length_throws ext rq b s s1 hb he hn hx e hl]; exact ⟨rfl, rfl⟩
    | ok l =>
      cases h8 : lengthLt l 8
      · by_cases hc : b.password = b.confirm_password
        · rcases h with h | h | h | h
          · rw [he] at h; exact absurd h (by decide)
          · rw [hn] at h; exact absurd h (by decide)
          · obtain ⟨l1, hl1, h81⟩ := length_of_shorterThan _ h
            rw [hl] at hl1
            cases hl1
            rw [h8] at h81
            exact absurd h81 (by decide)
          · exact absurd hc h
        · rw [createUser_password_mismatch ext rq b s s1 hb he hn hx l hl h8 hc]
          exact ⟨rfl, rfl⟩
      · rw [createUser_password_short ext rq b s s1 hb he hn hx l hl h8]
        exact ⟨rfl, rfl⟩

/-- C1, at a concrete input: over the empty model store, a five-character
password is answered by the length error, and a confirmation that differs
from an eight-character password by the mismatch error. -/
theorem createUser_validation_errors_witness :
    run (createUser (modelService sampleHash) shortPasswordCreate) emptyStore
        = (.ok .nextResult, ⟨emptyStore,
            [.emailExists (.string "a@x.com"),
             .next (errorResponder .VALIDATION_ERROR
               (some "Password must be at least 8 characters long"))]⟩)
      ∧ run (createUser (modelService sampleHash) mismatchCreate) emptyStore
        = (.ok .nextResult, ⟨emptyStore,
            [.emailExists (.string "a@x.com"),
             .next (errorResponder .VALIDATION_ERROR
               (some "Password and confirm password do not match"))]⟩) :=
  ⟨(createUser_validation_errors (modelService sampleHash) shortPasswordCreate
      { email := .string "a@x.com", password := .string "short", full_name := .string "A",
        confirm_password := .string "short" } emptyStore rfl).2.2.2.1
      emptyStore (by decide) (by decide) rfl (by decide),
   (createUser_validation_errors (modelService sampleHash) mismatchCreate
      { email := .string "a@x.com", password := .string "password1", full_name := .string "A",
        confirm_password := .string "password2" } emptyStore rfl).2.2.2.2.1
      emptyStore (by decide) (by decide) rfl (by decide) (by decide)⟩

/-- C1 as stated fails: with `alice` stored, a creation request with her email
and the five-character password `short` has a password of fewer than 8
characters, yet what `createUser` forwards is EMAIL_ALREADY_TAKEN, `Email
already exists`: no VALIDATION_ERROR reaches `next`. -/
theorem createUser_short_password_taken_email :
    (JsValue.string "short").shorterThan 8 = true
      ∧ run (createUser (modelService sampleHash) shortPasswordCreate) aliceStore
        = (.ok .nextResult, ⟨aliceStore,
            [.emailExists (.string "a@x.com"),
             .next (errorResponder .EMAIL_ALREADY_TAKEN (some "Email already exists"))]⟩)
      ∧ ∀ message, Event.next (errorResponder .VALIDATION_ERROR message)
          ∉ (run (createUser (modelService sampleHash) shortPasswordCreate) aliceStore).2.trace := by
  have h : run (createUser (modelService sampleHash) shortPasswordCreate) aliceStore
      = (.ok .nextResult, ⟨aliceStore,
          [.emailExists (.string "a@x.com"),
           .next (errorResponder .EMAIL_ALREADY_TAKEN (some "Email already exists"))]⟩) := rfl
  refine ⟨by decide, h, ?_⟩
  intro message
  rw [h]
  simp [errorResponder]

/-- C6: for every creation request that passes the five validations (email and
full name non-empty, `emailExists` returns `false`, the length test and the
confirmation test let the password through) and whose password `hashPassword`
turns into `h`, `createUser` calls `usersService.createUser` exactly once, with
the email, `h` and the full name, and with the plaintext password only if `h`
is that same value.  It writes status 201 exactly when that call returns
`true`, the body then being the message `User created successfully`; when the
call returns `false` it forwards UNPROCESSABLE_ENTITY `Failed to create user`
to `next` and writes no response; when the call rejects, the rejection is
forwarded and no response is written. -/
theorem createUser_valid_request (ext : Collaborators σ) (rq : Request) (b : Body)
    (s s1 s2 : σ) (h : JsValue) (hb : rq.body = some b) (he : b.email.truthy = true)
    (hn : b.full_name.truthy = true) (hx : ext.emailExists b.email s = (.ok false, s1))
    (hl : passesLengthRule b.password = true) (hc : b.password = b.confirm_password)
    (hh : ext.hashPassword b.password s1 = (.ok h, s2)) :
    (run (createUser ext rq) s).2.trace.filter Event.isCreateUser
        = [.createUser b.email h b.full_name]
      ∧ (run (createUser ext rq) s).2.trace.take 3
        = [.emailExists b.email, .hashPassword b.password, .createUser b.email h b.full_name]
      ∧ (h ≠ b.password →
          Event.createUser b.email b.password b.full_name ∉ (run (createUser ext rq) s).2.trace)
      ∧ (Event.status 201 ∈ (run (createUser ext rq) s).2.trace
          ↔ (ext.createUser b.email h b.full_name s2).1 = .ok true)
      ∧ ((ext.createUser b.email h b.full_name s2).1 = .ok true →
          run (createUser ext rq) s
            = (.ok .response, ⟨(ext.createUser b.email h b.full_name s2).2,
                [.emailExists b.email, .hashPassword b.password,
                 .createUser b.email h b.full_name, .status 201,
                 .json (.message "User created successfully")]⟩))
      ∧ ((ext.createUser b.email h b.full_name s2).1 = .ok false →
          run (createUser ext rq) s
            = (.ok .nextResult, ⟨(ext.createUser b.email h b.full_name s2).2,
                [.emailExists b.email, .hashPassword b.password,
                 .createUser b.email h b.full_name,
                 .next (errorResponder .UNPROCESSABLE_ENTITY (some "Failed to create user"))]⟩)
          ∧ errorTypes.UNPROCESSABLE_ENTITY.status = 422
          ∧ noResponseCall (run (createUser ext rq) s).2.trace = true)
      ∧ (∀ e, (ext.createUser b.email h b.full_name s2).1 = .error e →
          run (createUser ext rq) s
            = (.ok .nextResult, ⟨(ext.createUser b.email h b.full_name s2).2,
                [.emailExists b.email, .hashPassword b.password,
                 .createUser b.email h b.full_name, .next e]⟩)
          ∧ noResponseCall (run (createUser ext rq) s).2.trace = true) := by
  obtain ⟨l, hlen, h8⟩ := length_of_passesLengthRule _ hl
  rw [createUser_reaches_service ext rq b s s1 s2 hb he hn hx l hlen h8 hc h hh]
  rcases ext.createUser b.email h b.full_name s2 with ⟨r, s3⟩
  rcases r with e | (_ | _) <;>
    simp [createUserEnding, createUserResult, Event.isCreateUser, noResponseCall,
      Event.isResponseCall, errorTypes.status]
  all_goals exact fun hne heq => hne heq.symm

/-- C6, at a concrete input: over the empty model store the creation request
of the spec's example is stored under the hashed password and answered by 201. -/
theorem createUser_valid_request_witness :
    run (createUser (modelService sampleHash) aliceCreate) emptyStore
      = (.ok .response, ⟨aliceStore,
          [.emailExists (.string "a@x.com"), .hashPassword (.string "password1"),
           .createUser (.string "a@x.com") (.string "$password1") (.string "A"),
           .status 201, .json (.message "User created successfully")]⟩) :=
  (createUser_valid_request (modelService sampleHash) aliceCreate
    { email := .string "a@x.com", password := .string "password1", full_name := .string "A",
      confirm_password := .string "password1" }
    emptyStore emptyStore emptyStore (.string "$password1") rfl (by decide) (by decide) rfl
    (by decide) rfl rfl).2.2.2.2.1 rfl

/-- C2: for every creation request with non-empty email and full name for
which `emailExists` returns `true`, `createUser` forwards EMAIL_ALREADY_TAKEN
`Email already exists` to `next` and calls neither `hashPassword` nor
`usersService.createUser`.  Hence, over the model store (where `createUser`
inserts a record and `emailExists` reports membership), when a valid creation
request for an email that no stored user has is followed by a second creation
request with the same email and a non-empty full name, the first is answered
by 201, the second by EMAIL_ALREADY_TAKEN, and the store ends with exactly one
user with that email. -/
theorem createUser_duplicate_email :
    (∀ (σ : Type) (ext : Collaborators σ) (rq : Request) (b : Body) (s s1 : σ),
        rq.body = some b → b.email.truthy = true → b.full_name.truthy = true →
        ext.emailExists b.email s = (.ok true, s1) →
        run (createUser ext rq) s
            = (.ok .nextResult, ⟨s1,
                [.emailExists b.email,
                 .next (errorResponder .EMAIL_ALREADY_TAKEN (some "Email already exists"))]⟩)
          ∧ noHashPassword (run (createUser ext rq) s).2.trace = true
          ∧ noCreateUser (run (createUser ext rq) s).2.trace = true)
      ∧ (∀ (hash : JsValue → Except Thrown JsValue) (st : Store) (rq1 rq2 : Request)
          (b1 b2 : Body) (h : JsValue),
        rq1.body = some b1 → rq2.body = some b2 → b2.email = b1.email →
        b1.email.truthy = true → b1.full_name.truthy = true → b2.full_name.truthy = true →
        st.countEmail b1.email = 0 →
        passesLengthRule b1.password = true → b1.password = b1.confirm_password →
        hash b1.password = .ok h →
        (run (createUser (modelService hash) rq1) st).1 = .ok .response
          ∧ Event.status 201 ∈ (run (createUser (modelService hash) rq1) st).2.trace
          ∧ run (createUser (modelService hash) rq2)
              (run (createUser (modelService hash) rq1) st).2.store
            = (.ok .nextResult, ⟨(run (createUser (modelService hash) rq1) st).2.store,
                [.emailExists b1.email,
                 .next (errorResponder .EMAIL_ALREADY_TAKEN (some "Email already exists"))]⟩)
          ∧ (run (createUser (modelService hash) rq2)
              (run (createUser (modelService hash) rq1) st).2.store).2.store.countEmail b1.email
            = 1) := by
  constructor
  · intro σ ext rq b s s1 hb he hn hx
    rw [createUser_email_taken ext rq b s s1 hb he hn hx]
    exact ⟨rfl, rfl, rfl⟩
  · intro hash st rq1 rq2 b1 b2 h hb1 hb2 hemail he hn1 hn2 hcount hl hc hh
    obtain ⟨l, hlen, h8⟩ := length_of_passesLengthRule _ hl
    have hx : (modelService hash).emailExists b1.email st = (.ok false, st) := by
      rw [modelService_emailExists, any_email_of_countEmail_zero st _ hcount]
    have hhash : (modelService hash).hashPassword b1.password st = (.ok h, st) := by
      simp [modelService, hh]
    have h1 := createUser_reaches_service (modelService hash) rq1 b1 st st st hb1 he hn1 hx
      l hlen h8 hc h hhash
    have hcreate : (modelService hash).createUser b1.email h b1.full_name st
        = (.ok true,
            { users := st.users ++
                [{ id := .number st.nextId, email := b1.email, fullName := b1.full_name,
                   password := h }],
              nextId := st.nextId + 1 }) := rfl
    rw [hcreate] at h1
    have hcount1 := countEmail_after_insert st b1.email b1.full_name h (st.nextId + 1) hcount
    have hx2 : (modelService hash).emailExists b2.email
        { users := st.users ++
            [{ id := .number st.nextId, email := b1.email, fullName := b1.full_name,
               password := h }],
          nextId := st.nextId + 1 }
        = (.ok true,
            { users := st.users ++
                [{ id := .number st.nextId, email := b1.email, fullName := b1.full_name,
                   password := h }],
              nextId := st.nextId + 1 }) := by
      rw [modelService_emailExists, hemail]
      simp
    have he2 : b2.email.truthy = true := by rw [hemail]; exact he
    have h2 := createUser_email_taken (modelService hash) rq2 b2 _ _ hb2 he2 hn2 hx2
    rw [h1]
    refine ⟨rfl, by simp [createUserEnding], ?_, ?_⟩
    · rw [hemail] at h2; exact h2
    · show Store.countEmail (run (createUser (modelService hash) rq2) _).2.store b1.email = 1
      rw [h2]; exact hcount1

/-- C2, at a concrete input: with `alice` stored, a creation request with her
email is answered by EMAIL_ALREADY_TAKEN; and sending the creation request of
the spec's example twice to the empty model store leaves `alice` alone in it. -/
theorem createUser_duplicate_email_witness :
    run (createUser (modelService sampleHash) aliceCreate) aliceStore
        = (.ok .nextResult, ⟨aliceStore,
            [.emailExists (.string "a@x.com"),
             .next (errorResponder .EMAIL_ALREADY_TAKEN (some "Email already exists"))]⟩)
      ∧ (run (createUser (modelService sampleHash) aliceCreate)
          (run (createUser (modelService sampleHash) aliceCreate) emptyStore).2.store).2.store
        = aliceStore
      ∧ aliceStore.countEmail (.string "a@x.com") = 1 :=
  ⟨(createUser_duplicate_email.1 Store (modelService sampleHash) aliceCreate
      { email := .string "a@x.com", password := .string "password1", full_name := .string "A",
        confirm_password := .string "password1" }
      aliceStore aliceStore rfl (by decide) (by decide) rfl).1,
   rfl,
   (createUser_duplicate_email.2 sampleHash emptyStore aliceCreate aliceCreate
      { email := .string "a@x.com", password := .string "password1", full_name := .string "A",
        confirm_password := .string "password1" }
      { email := .string "a@x.com", password := .string "password1", full_name := .string "A",
        confirm_password := .string "password1" }
      (.string "$password1") rfl rfl rfl (by decide) (by decide) (by decide) (by decide)
      (by decide) rfl rfl).2.2.2⟩

/-- C5, evaluated on the code: the request with email `b@x.com`, full name `B`
and no password field, sent while only `alice` is stored, passes rules 1 to 3
and fails rule 4, so the chain of section 4.4 names VALIDATION_ERROR,
`Password must be at least 8 characters long`; what `createUser` passes to
`next` is the `TypeError` thrown by `password.length`, which carries no
category and no message. -/
theorem createUser_missing_password_skips_rule :
    firstFailingRule false
        { email := .string "b@x.com", password := .undefined, full_name := .string "B",
          confirm_password := .undefined }
        = some (.VALIDATION_ERROR, "Password must be at least 8 characters long")
      ∧ ((modelService sampleHash).emailExists (.string "b@x.com") aliceStore).1 = .ok false
      ∧ run (createUser (modelService sampleHash) bobNoPassword) aliceStore
        = (.ok .nextResult, ⟨aliceStore,
            [.emailExists (.string "b@x.com"), .next .typeError]⟩)
      ∧ Event.next (errorResponder .VALIDATION_ERROR
            (some "Password must be at least 8 characters long"))
          ∉ (run (createUser (modelService sampleHash) bobNoPassword) aliceStore).2.trace := by
  have h : run (createUser (modelService sampleHash) bobNoPassword) aliceStore
      = (.ok .nextResult, ⟨aliceStore,
          [.emailExists (.string "b@x.com"), .next .typeError]⟩) := rfl
  refine ⟨by decide, rfl, h, ?_⟩
  rw [h]
  simp [errorResponder]

/-- Where the password is a string, `createUser` follows the chain of section
4.4: whenever `emailExists` answers `registered` and the chain names a first
failing rule, the category and message of that rule are what reaches `next`;
no response is written and neither `hashPassword` nor
`usersService.createUser` is called; and `emailExists` is not called when rule
1 or rule 2 is the one that fails. -/
theorem createUser_follows_chain_on_strings (ext : Collaborators σ) (rq : Request) (b : Body)
    (s s1 : σ) (registered : Bool) (pw : String) (type : errorTypes) (message : String)
    (hb : rq.body = some b) (hpw : b.password = .string pw)
    (hx : ext.emailExists b.email s = (.ok registered, s1))
    (hf : firstFailingRule registered b = some (type, message)) :
    (run (createUser ext rq) s).1 = .ok .nextResult
      ∧ (run (createUser ext rq) s).2.trace.getLast?
          = some (.next (errorResponder type (some message)))
      ∧ noResponseCall (run (createUser ext rq) s).2.trace = true
      ∧ noHashPassword (run (createUser ext rq) s).2.trace = true
      ∧ noCreateUser (run (createUser ext rq) s).2.trace = true
      ∧ ((b.email.truthy = false ∨ b.full_name.truthy = false) →
          noEmailExists (run (createUser ext rq) s).2.trace = true) := by
  unfold firstFailingRule at hf
  cases he : b.email.truthy
  · rw [createUser_email_required ext rq b s hb he]
    simp [he] at hf
    obtain ⟨rfl, rfl⟩ := hf
    exact ⟨rfl, rfl, rfl, rfl, rfl, fun _ => rfl⟩
  · cases hn : b.full_name.truthy
    · rw [createUser_full_name_required ext rq b s hb he hn]
      simp [he, hn] at hf
      obtain ⟨rfl, rfl⟩ := hf
      exact ⟨rfl, rfl, rfl, rfl, rfl, fun _ => rfl⟩
    · cases registered
      · have hlen : b.password.length = .ok (some (utf16Length pw)) := by
          rw [hpw]; rfl
        by_cases h8 : utf16Length pw < 8
        · rw [createUser_password_short ext rq b s s1 hb he hn hx _ hlen
            (by simp [lengthLt, h8])]
          simp [he, hn, hpw, JsValue.atLeast, h8] at hf
          obtain ⟨rfl, rfl⟩ := hf
          exact ⟨rfl, rfl, rfl, rfl, rfl, fun h => by simp at h⟩
        · by_cases hc : b.password = b.confirm_password
          · rw [← hc] at hf
            simp [he, hn, hpw, JsValue.atLeast, h8] at hf
          · rw [createUser_password_mismatch ext rq b s s1 hb he hn hx _ hlen
              (by simp [lengthLt, h8]) hc]
            rw [hpw] at hc
            simp [he, hn, hpw, JsValue.atLeast, h8, hc] at hf
            obtain ⟨rfl, rfl⟩ := hf
            exact ⟨rfl, rfl, rfl, rfl, rfl, fun h => by simp at h⟩
      · rw [createUser_email_taken ext rq b s s1 hb he hn hx]
        simp [he, hn] at hf
        obtain ⟨rfl, rfl⟩ := hf
        exact ⟨rfl, rfl, rfl, rfl, rfl, fun h => by simp at h⟩

/-! ## updateUser -/

/-- C3: for every update request on an existing user (the service returns the
record `u` for the id) with non-empty email and full name: when the submitted
email equals `u.email`, `emailExists` is not called, whatever it would answer,
the next call is `usersService.updateUser` with the id, the email and the
full name, and when that returns `true` the response is 200 with the message
`User updated successfully`; when the submitted email differs from `u.email`
and `emailExists` returns `true`, EMAIL_ALREADY_TAKEN `Email already exists`
is forwarded to `next` and `usersService.updateUser` is not called. -/
theorem updateUser_email_uniqueness (ext : Collaborators σ) (rq : Request) (b : Body)
    (u : User) (s s1 : σ) (hb : rq.body = some b)
    (hg : ext.getUser [.value rq.params_id] s = (.ok (some u), s1))
    (he : b.email.truthy = true) (hn : b.full_name.truthy = true) :
    (b.email = u.email →
        noEmailExists (run (updateUser ext rq) s).2.trace = true
          ∧ (run (updateUser ext rq) s).2.trace.take 2
            = [.getUser [.value rq.params_id],
               .updateUser rq.params_id b.email b.full_name]
          ∧ ((ext.updateUser rq.params_id b.email b.full_name s1).1 = .ok true →
              run (updateUser ext rq) s
                = (.ok .response, ⟨(ext.updateUser rq.params_id b.email b.full_name s1).2,
                    [.getUser [.value rq.params_id],
                     .updateUser rq.params_id b.email b.full_name, .status 200,
                     .json (.message "User updated successfully")]⟩)))
      ∧ (∀ s2, b.email ≠ u.email → ext.emailExists b.email s1 = (.ok true, s2) →
          run (updateUser ext rq) s
              = (.ok .nextResult, ⟨s2,
                  [.getUser [.value rq.params_id], .emailExists b.email,
                   .next (errorResponder .EMAIL_ALREADY_TAKEN (some "Email already exists"))]⟩)
            ∧ noUpdateUser (run (updateUser ext rq) s).2.trace = true) := by
  constructor
  · intro hsame
    rw [updateUser_unchanged_email ext rq b u s s1 hb hg he hn hsame]
    rcases ext.updateUser rq.params_id b.email b.full_name s1 with ⟨r, s3⟩
    rcases r with e | (_ | _) <;>
      simp [updateUserEnding, updateUserResult, noEmailExists, Event.isEmailExists]
  · intro s2 hdiff hx
    rw [updateUser_email_taken ext rq b u s s1 s2 hb hg he hn hdiff hx]
    exact ⟨rfl, rfl⟩

/-- C3, at a concrete input: with `alice` and `bob` stored, `emailExists`
answers `true` for the email of `alice`, yet the update of `alice` that keeps
her email is answered by 200 without that call; and the update of `alice`
that asks for the email of `bob` is answered by EMAIL_ALREADY_TAKEN. -/
theorem updateUser_email_uniqueness_witness :
    ((modelService sampleHash).emailExists (.string "a@x.com") twoStore).1 = .ok true
      ∧ run (updateUser (modelService sampleHash) aliceRename) twoStore
        = (.ok .response, ⟨renamedStore,
            [.getUser [.value (.number 0)],
             .updateUser (.number 0) (.string "a@x.com") (.string "Alice"), .status 200,
             .json (.message "User updated successfully")]⟩)
      ∧ run (updateUser (modelService sampleHash) aliceTakesBob) twoStore
        = (.ok .nextResult, ⟨twoStore,
            [.getUser [.value (.number 0)], .emailExists (.string "b@x.com"),
             .next (errorResponder .EMAIL_ALREADY_TAKEN (some "Email already exists"))]⟩) :=
  ⟨rfl,
   ((updateUser_email_uniqueness (modelService sampleHash) aliceRename
      { email := .string "a@x.com", password := .undefined, full_name := .string "Alice",
        confirm_password := .undefined }
      alice twoStore twoStore rfl rfl (by decide) (by decide)).1 rfl).2.2 rfl,
   ((updateUser_email_uniqueness (modelService sampleHash) aliceTakesBob
      { email := .string "b@x.com", password := .undefined, full_name := .string "A",
        confirm_password := .undefined }
      alice twoStore twoStore rfl rfl (by decide) (by decide)).2 twoStore (by decide) rfl).1⟩

/-! ## loginUser -/

/-- C9: for every request and every state of the collaborators, `loginUser`
resolves to the string `server error` with an empty log: no method of the
response object and no method of `usersService` is called.  With a parsed
body, the `try` block ends either in one of the two validation errors or in
the `ReferenceError` raised by reading `user` inside its own initialiser;
when `request.body` itself is `undefined`, it ends in the `TypeError` of the
destructuring.  The `catch` swallows each of them. -/
theorem loginUser_always_server_error (ext : Collaborators σ) (rq : Request) (s : σ) :
    run (loginUser ext rq) s = (.ok (.string "server error"), ⟨s, []⟩)
      ∧ noResponseCall (run (loginUser ext rq) s).2.trace = true
      ∧ noServiceCall (run (loginUser ext rq) s).2.trace = true
      ∧ (∀ b, rq.body = some b →
          (b.email.truthy = false ∧ run (loginUserTry ext rq) s
              = (.error (errorResponder .VALIDATION_ERROR (some "Email is required")), ⟨s, []⟩))
          ∨ (b.email.truthy = true ∧ b.password.truthy = false ∧ run (loginUserTry ext rq) s
              = (.error (errorResponder .VALIDATION_ERROR (some "Password is required")),
                  ⟨s, []⟩))
          ∨ (b.email.truthy = true ∧ b.password.truthy = true ∧ run (loginUserTry ext rq) s
              = (.error .referenceError, ⟨s, []⟩)))
      ∧ (rq.body = none → run (loginUserTry ext rq) s = (.error .typeError, ⟨s, []⟩)) := by
  rcases rq with ⟨body, id⟩
  rcases body with _ | b
  · simp [run, loginUser, loginUserTry, Handler.seq, Handler.attempt, destructure,
      noResponseCall, noServiceCall]
  · cases he : b.email.truthy <;> cases hp : b.password.truthy <;>
      simp [run, loginUser, loginUserTry, Handler.seq, Handler.attempt, destructure,
        readBinding, noResponseCall, noServiceCall, he, hp]

/-- C9, at a concrete input: a request whose body has no field fails the email
check, and the handler resolves to `server error` with an empty log. -/
theorem loginUser_always_server_error_witness :
    run (loginUser (modelService sampleHash) blankRequest) aliceStore
        = (.ok (.string "server error"), ⟨aliceStore, []⟩)
      ∧ run (loginUserTry (modelService sampleHash) blankRequest) aliceStore
        = (.error (errorResponder .VALIDATION_ERROR (some "Email is required")),
            ⟨aliceStore, []⟩) :=
  ⟨(loginUser_always_server_error (modelService sampleHash) blankRequest aliceStore).1,
   rfl⟩

/-- C4, evaluated on the code: with `alice` stored, a login with her email and
her password, a login with her email and a wrong password, and a login with
an unknown email all resolve to the string `server error`; none of them
writes a status (200, 403 or 404) or a body. -/
theorem loginUser_stored_user_no_response :
    run (loginUser (modelService sampleHash) aliceLogin) aliceStore
        = (.ok (.string "server error"), ⟨aliceStore, []⟩)
      ∧ run (loginUser (modelService sampleHash) aliceWrongLogin) aliceStore
        = (.ok (.string "server error"), ⟨aliceStore, []⟩)
      ∧ run (loginUser (modelService sampleHash) strangerLogin) aliceStore
        = (.ok (.string "server error"), ⟨aliceStore, []⟩)
      ∧ Event.status 200 ∉ (run (loginUser (modelService sampleHash) aliceLogin) aliceStore).2.trace
      ∧ Event.status 403 ∉
          (run (loginUser (modelService sampleHash) aliceWrongLogin) aliceStore).2.trace
      ∧ Event.status 404 ∉
          (run (loginUser (modelService sampleHash) strangerLogin) aliceStore).2.trace := by
  have h1 : run (loginUser (modelService sampleHash) aliceLogin) aliceStore
      = (.ok (.string "server error"), ⟨aliceStore, []⟩) := rfl
  have h2 : run (loginUser (modelService sampleHash) aliceWrongLogin) aliceStore
      = (.ok (.string "server error"), ⟨aliceStore, []⟩) := rfl
  have h3 : run (loginUser (modelService sampleHash) strangerLogin) aliceStore
      = (.ok (.string "server error"), ⟨aliceStore, []⟩) := rfl
  rw [h1, h2, h3]
  simp

end Claims

end UsersController
